import Mathlib

/-!
Verification of trend_finder.py (loyaltyC4/trend-finder).

Shallow embedding: Python floats are modelled as rationals, network
responses are explicit inputs, JSON values form an inductive type, and
each fallible Python operation returns Except PyErr.  Definitions follow
the source functions line by line; theorems settle the specification
claims about them.
-/

/-- Python exception classes that the embedded code can raise. -/
inductive PyErr where
  | typeError
  | keyError
  | attributeError
  | valueError
  | jsonDecodeError
  | requestError
  | indexError
deriving DecidableEq

instance {ε α : Type} [DecidableEq ε] [DecidableEq α] : DecidableEq (Except ε α)
  | .error a, .error b =>
    if h : a = b then .isTrue (h ▸ rfl) else .isFalse (fun hh => h (Except.error.inj hh))
  | .error _, .ok _ => .isFalse (fun hh => Except.noConfusion hh)
  | .ok _, .error _ => .isFalse (fun hh => Except.noConfusion hh)
  | .ok a, .ok b =>
    if h : a = b then .isTrue (h ▸ rfl) else .isFalse (fun hh => h (Except.ok.inj hh))

/-- A JSON value, as produced by resp.json(). -/
inductive Json where
  | null
  | bool (b : Bool)
  | num (q : ℚ)
  | str (s : String)
  | arr (xs : List Json)
  | obj (fields : List (String × Json))

/-- Outcome of one requests.get call: either the request raises
(timeout, connection error, ...), or a response arrives with a status
(ok = true means raise_for_status passes) and a body that is either
valid JSON or not parseable as JSON (none). -/
inductive NetOutcome where
  | failure
  | response (ok : Bool) (body : Option Json)

-- Configuration constants from the source header.
def MAX_SELL_PRICE : ℚ := 25
def MIN_MARGIN : ℚ := 3/10
def MAX_LISTINGS : ℕ := 250
def TOP_N_TRENDS : ℕ := 20

def GOOGLE_GEOS : List (String × String) := [("AU", "AU"), ("UK", "GB"), ("US", "US")]
def EBAY_GLOBAL_IDS : List (String × String) :=
  [("AU", "EBAY-AU"), ("UK", "EBAY-GB"), ("US", "EBAY-US")]

/-- Lookup in an association list modelling a Python dict. -/
def lookupStr (m : List (String × String)) (k : String) : Option String :=
  (m.find? (fun p => p.1 == k)).map (fun p => p.2)

/-- Lookup of a key in the field list of a JSON object (dict access). -/
def lookupJ (fields : List (String × Json)) (k : String) : Option Json :=
  (fields.find? (fun p => p.1 == k)).map (fun p => p.2)

/-- Python truthiness of a JSON value. -/
def pyTruthy : Json → Bool
  | .null => false
  | .bool b => b
  | .num q => decide (q ≠ 0)
  | .str s => decide (s ≠ "")
  | .arr xs => !xs.isEmpty
  | .obj fields => !fields.isEmpty

/-- Python truthiness of a value that may be None. -/
def pyTruthyOpt (o : Option Json) : Bool :=
  match o with
  | none => false
  | some j => pyTruthy j

/-- Models x.get(k): succeeds with the optional value when x is a dict,
raises AttributeError otherwise. -/
def pyGet (j : Json) (k : String) : Except PyErr (Option Json) :=
  match j with
  | .obj fields => .ok (lookupJ fields k)
  | _ => .error .attributeError

/-- Models x.get(k, d): x.get with a default. -/
def pyGetD (j : Json) (k : String) (d : Json) : Except PyErr Json :=
  match pyGet j k with
  | .error e => .error e
  | .ok none => .ok d
  | .ok (some v) => .ok v

/-- Models x[k] for a string key: dict lookup raising KeyError when the
key is missing, TypeError on non-subscriptable or wrongly-keyed values. -/
def pySubscript (j : Json) (k : String) : Except PyErr Json :=
  match j with
  | .obj fields =>
    match lookupJ fields k with
    | some v => .ok v
    | none => .error .keyError
  | .arr _ => .error .typeError
  | .str _ => .error .typeError
  | _ => .error .typeError

/-- Models x[0]: first element of a list (IndexError when empty), first
character of a string, KeyError on a dict without key 0, TypeError else. -/
def pyIndex0 (j : Json) : Except PyErr Json :=
  match j with
  | .arr [] => .error .indexError
  | .arr (x :: _) => .ok x
  | .str s =>
    match s.data with
    | [] => .error .indexError
    | c :: _ => .ok (.str (String.mk [c]))
  | .obj _ => .error .keyError
  | _ => .error .typeError

/-- Models iteration (for x in v): lists yield elements, strings yield
one-character strings, dicts yield their keys, other values raise. -/
def pyIter (j : Json) : Except PyErr (List Json) :=
  match j with
  | .arr xs => .ok xs
  | .str s => .ok (s.data.map (fun c => .str (String.mk [c])))
  | .obj fields => .ok (fields.map (fun p => .str p.1))
  | _ => .error .typeError

/-- Numeric value of a list of decimal digit characters. -/
def natOfDigits (cs : List Char) : ℕ :=
  cs.foldl (fun a c => 10 * a + (c.toNat - 48)) 0

/-- Parse an unsigned Python float literal of the plain decimal forms
digits, digits.digits, .digits or digits. (no exponent). -/
def pyFloatUnsigned (cs : List Char) : Option ℚ :=
  let intPart := cs.takeWhile Char.isDigit
  let rest := cs.dropWhile Char.isDigit
  if rest = [] then (if intPart = [] then none else some (natOfDigits intPart))
  else if rest.head? = some '.' ∧ rest.tail.all Char.isDigit ∧ (intPart ≠ [] ∨ rest.tail ≠ []) then
    some ((natOfDigits intPart : ℚ) + (natOfDigits rest.tail : ℚ) / 10 ^ rest.tail.length)
  else none

/-- Models float(s) on a string: strips spaces, handles an optional
sign, then a plain decimal literal; none models ValueError. -/
def pyFloatChars (cs : List Char) : Option ℚ :=
  let cs1 := cs.dropWhile (fun c => c = ' ')
  let cs2 := (cs1.reverse.dropWhile (fun c => c = ' ')).reverse
  if cs2.head? = some '-' then (pyFloatUnsigned cs2.tail).map (fun q => -q)
  else if cs2.head? = some '+' then pyFloatUnsigned cs2.tail
  else pyFloatUnsigned cs2

/-- Models float(v) on a JSON value: numbers and bools convert, strings
parse (ValueError on failure), everything else raises TypeError. -/
def pyFloatOfJson (j : Json) : Except PyErr ℚ :=
  match j with
  | .num q => .ok q
  | .bool b => .ok (if b then 1 else 0)
  | .str s =>
    match pyFloatChars s.data with
    | some q => .ok q
    | none => .error .valueError
  | _ => .error .typeError

/-- Models txt.replace with pattern US dollar marker: removes every
non-overlapping occurrence of the four characters U S space dollar,
scanning left to right as str.replace does. -/
def stripUSD : List Char → List Char
  | 'U' :: 'S' :: ' ' :: '$' :: rest => stripUSD rest
  | c :: rest => c :: stripUSD rest
  | [] => []

/-- Python round to an integer: round-half-to-even on a rational. -/
def pyRoundInt (x : ℚ) : ℤ :=
  let f : ℤ := ⌊x⌋
  let r : ℚ := x - f
  if r < 1/2 then f
  else if 1/2 < r then f + 1
  else if f % 2 = 0 then f else f + 1

/-- Python round(x, d) for non-negative d. -/
def pyRound (x : ℚ) (d : ℕ) : ℚ :=
  (pyRoundInt (x * 10 ^ d) : ℚ) / 10 ^ d

/-- The dict returned by ebay_search_stats: count and avg_price. -/
structure EbayStats where
  count : ℕ
  avg_price : Option ℚ
deriving DecidableEq

/-- The price comprehension of ebay_search_stats: for each item with a
truthy sellingStatus, float(it.sellingStatus[0].currentPrice[0].__value__);
any failure inside the comprehension propagates. -/
def comp_prices : List Json → Except PyErr (List ℚ)
  | [] => .ok []
  | it :: rest =>
    match pyGet it "sellingStatus" with
    | .error e => .error e
    | .ok g =>
      if pyTruthyOpt g then
        match pySubscript it "sellingStatus" with
        | .error e => .error e
        | .ok ss =>
          match pyIndex0 ss with
          | .error e => .error e
          | .ok s0 =>
            match pySubscript s0 "currentPrice" with
            | .error e => .error e
            | .ok cp =>
              match pyIndex0 cp with
              | .error e => .error e
              | .ok c0 =>
                match pySubscript c0 "__value__" with
                | .error e => .error e
                | .ok v =>
                  match pyFloatOfJson v with
                  | .error e => .error e
                  | .ok p =>
                    match comp_prices rest with
                    | .error e => .error e
                    | .ok ps => .ok (p :: ps)
      else comp_prices rest

/-- ebay_search_stats from the source: raise_for_status, then the
defensive .get chain down to the item list, then the price
comprehension, then count and average. -/
def ebay_search_stats (net : NetOutcome) : Except PyErr EbayStats :=
  match net with
  | .failure => .error .requestError
  | .response ok body =>
    if ok then
      match body with
      | none => .error .jsonDecodeError
      | some j =>
        match pyGetD j "findItemsAdvancedResponse" (.arr [.obj []]) with
        | .error e => .error e
        | .ok e1 =>
          match pyIndex0 e1 with
          | .error e => .error e
          | .ok e2 =>
            match pyGetD e2 "searchResult" (.arr [.obj []]) with
            | .error e => .error e
            | .ok e3 =>
              match pyIndex0 e3 with
              | .error e => .error e
              | .ok e4 =>
                match pyGetD e4 "item" (.arr []) with
                | .error e => .error e
                | .ok itemsV =>
                  match pyIter itemsV with
                  | .error e => .error e
                  | .ok items =>
                    match comp_prices items with
                    | .error e => .error e
                    | .ok prices =>
                      .ok { count := prices.length
                            avg_price :=
                              match prices with
                              | [] => none
                              | _ => some (prices.sum / (prices.length : ℚ)) }
    else .error .requestError

/-- The per-product body of the price loop in aliexpress_lowest_price:
txt = prod.get(salePrice) or prod.get(originalPrice); skip falsy txt;
txt.replace then float, with ValueError caught and the entry skipped. -/
def ali_prices : List Json → Except PyErr (List ℚ)
  | [] => .ok []
  | prod :: rest =>
    match prod with
    | .obj pf =>
      let sp := lookupJ pf "salePrice"
      let txt := if pyTruthyOpt sp then sp else lookupJ pf "originalPrice"
      match txt with
      | none => ali_prices rest
      | some t =>
        if pyTruthy t then
          match t with
          | .str s =>
            match pyFloatChars (stripUSD s.data) with
            | some q =>
              match ali_prices rest with
              | .error e => .error e
              | .ok ps => .ok (q :: ps)
            | none => ali_prices rest
          | _ => .error .attributeError
        else ali_prices rest
    | _ => .error .attributeError

/-- aliexpress_lowest_price from the source.  creds models whether both
ALIEXPRESS_APP_KEY and ALIEXPRESS_TRACKING_ID are set.  The try block
covers only the request and raise_for_status; r.json() runs outside it. -/
def aliexpress_lowest_price (creds : Bool) (net : NetOutcome) : Except PyErr (Option ℚ) :=
  if creds then
    match net with
    | .failure => .ok none
    | .response ok body =>
      if ok then
        match body with
        | none => .error .jsonDecodeError
        | some j =>
          match pyGet j "success" with
          | .error e => .error e
          | .ok success =>
            if pyTruthyOpt success then
              match pyGetD j "result" (.obj []) with
              | .error e => .error e
              | .ok result =>
                match pyGetD result "products" (.arr []) with
                | .error e => .error e
                | .ok productsV =>
                  match pyIter productsV with
                  | .error e => .error e
                  | .ok prods =>
                    match ali_prices prods with
                    | .error e => .error e
                    | .ok prices =>
                      match prices with
                      | [] => .ok none
                      | p :: ps => .ok (some (ps.foldl min p))
            else .ok none
      else .ok none
  else .ok none

/-- The candidate dict built by evaluate_keyword on acceptance. -/
structure Candidate where
  keyword : String
  region : String
  sell_price : ℚ
  cost_price : Option ℚ
  margin_pct : Option ℚ
  ebay_listings : ℕ
deriving DecidableEq

/-- margin = (avg - cost)/avg if cost else None: the conditional
expression is governed by the truthiness of cost. -/
def margin_of (avg : ℚ) : Option ℚ → Option ℚ
  | some c => if c = 0 then none else some ((avg - c) / avg)
  | none => none

/-- The dict literal returned by evaluate_keyword: rounded sell price,
cost and margin rendered as n/a (none) when falsy. -/
def mkCandidate (keyword region : String) (avg : ℚ) (cost : Option ℚ)
    (margin : Option ℚ) (count : ℕ) : Candidate :=
  { keyword := keyword
    region := region
    sell_price := pyRound avg 2
    cost_price :=
      match cost with
      | some c => if c = 0 then none else some (pyRound c 2)
      | none => none
    margin_pct :=
      match margin with
      | some m => if m = 0 then none else some (pyRound (m * 100) 1)
      | none => none
    ebay_listings := count }

/-- evaluate_keyword from the source, with the two network calls taken
as explicit inputs.  The comparison None < MIN_MARGIN (reached when
cost is the float 0.0, which is falsy but not None) is a TypeError. -/
def evaluate_keyword (keyword region : String) (ebayNet : NetOutcome)
    (aliCreds : Bool) (aliNet : NetOutcome) : Except PyErr (Option Candidate) :=
  match lookupStr EBAY_GLOBAL_IDS region with
  | none => .error .keyError
  | some _gid =>
    match ebay_search_stats ebayNet with
    | .error e => .error e
    | .ok stats =>
      match stats.avg_price with
      | none => .ok none
      | some avg =>
        if avg = 0 ∨ MAX_SELL_PRICE < avg ∨ MAX_LISTINGS < stats.count then .ok none
        else
          match aliexpress_lowest_price aliCreds aliNet with
          | .error e => .error e
          | .ok none => .ok (some (mkCandidate keyword region avg none (margin_of avg none) stats.count))
          | .ok (some c) =>
            match margin_of avg (some c) with
            | none => .error .typeError
            | some m =>
              if m < MIN_MARGIN then .ok none
              else .ok (some (mkCandidate keyword region avg (some c) (margin_of avg (some c)) stats.count))

/-- The dedup-and-truncate loop of get_trending_keywords: append kw when
non-empty and unseen, stop as soon as seen reaches top_n entries. -/
def trend_loop (top_n : ℕ) : List String → List String → List String
  | [], seen => seen
  | kw :: rest, seen =>
    let seen' := if kw ≠ "" ∧ kw ∉ seen then seen ++ [kw] else seen
    if top_n ≤ seen'.length then seen' else trend_loop top_n rest seen'

/-- get_trending_keywords from the source, with the fetched feed of
keywords (fetch_daily_trends output) taken as an explicit input. -/
def get_trending_keywords (kws : List String) (top_n : ℕ) : List String :=
  trend_loop top_n kws []

/-- The inner keyword loop of discover_products: evaluate each keyword,
append the candidate when a truthy dict is returned, swallow any
exception (the except clause only prints) and continue. -/
def eval_rows (evalf : String → String → Except PyErr (Option Candidate))
    (reg : String) : List String → List Candidate
  | [] => []
  | kw :: rest =>
    match evalf kw reg with
    | .ok (some c) => c :: eval_rows evalf reg rest
    | .ok none => eval_rows evalf reg rest
    | .error _ => eval_rows evalf reg rest

/-- discover_products from the source: iterate regions, fetch trending
keywords (taken as an input function), evaluate each keyword with
per-keyword exception isolation, and accumulate rows in order. -/
def discover_products (regions : List String) (kwsOf : String → List String)
    (evalf : String → String → Except PyErr (Option Candidate)) : List Candidate :=
  match regions with
  | [] => []
  | reg :: rest => eval_rows evalf reg (kwsOf reg) ++ discover_products rest kwsOf evalf

/-- A cell of the margin_pct DataFrame column: a float for an accepted
margin, the string n/a otherwise (an object-dtype column mixes both). -/
inductive CellVal where
  | num (q : ℚ)
  | str (s : String)
deriving DecidableEq

/-- Models a pandas comparison between two cells of an object column:
numbers and strings compare among themselves, but comparing a str to a
float raises TypeError under Python 3. -/
def cellLt : CellVal → CellVal → Except PyErr Bool
  | .num a, .num b => .ok (decide (a < b))
  | .str a, .str b => .ok (decide (a < b))
  | _, _ => .error .typeError

/-- One insertion step of the comparison sort behind
df.sort_values(ascending=False): any needed comparison that raises
aborts the whole sort. -/
def insert_desc {α : Type} (key : α → CellVal) (a : α) :
    List α → Except PyErr (List α)
  | [] => .ok [a]
  | b :: rest =>
    match cellLt (key a) (key b) with
    | .error e => .error e
    | .ok lt =>
      if lt then
        match insert_desc key a rest with
        | .error e => .error e
        | .ok r => .ok (b :: r)
      else .ok (a :: b :: rest)

/-- Models df.sort_values(by=col, ascending=False): a comparison sort of
the rows by the given column; mixed numeric/string columns raise
TypeError as soon as a cross-type comparison is attempted. -/
def sort_values_desc {α : Type} (key : α → CellVal) :
    List α → Except PyErr (List α)
  | [] => .ok []
  | a :: rest =>
    match sort_values_desc key rest with
    | .error e => .error e
    | .ok r => insert_desc key a r

/-- The margin_pct cell of a candidate row as it sits in the DataFrame. -/
def margin_cell (c : Candidate) : CellVal :=
  match c.margin_pct with
  | some q => .num q
  | none => .str "n/a"

/-- The report-ordering step of main: sort the accepted rows by the
margin_pct column, descending, before writing the CSV. -/
def report_rows (rows : List Candidate) : Except PyErr (List Candidate) :=
  sort_values_desc margin_cell rows

/-- A well-formed marketplace item: priced (with the given current
price) or bare, without pricing data. -/
def mkItem : Option ℚ → Json
  | none => .obj []
  | some q =>
    .obj [("sellingStatus", .arr [.obj [("currentPrice", .arr [.obj [("__value__", .num q)]])]])]

/-- A well-formed marketplace response whose items are built by mkItem
and which also reports a server-side total-result count that the code
is expected to ignore. -/
def mkEbayResp (os : List (Option ℚ)) (total : ℕ) : NetOutcome :=
  .response true (some (.obj [("findItemsAdvancedResponse", .arr [.obj
    [("searchResult", .arr [.obj [("item", .arr (os.map mkItem))]]),
     ("paginationOutput", .arr [.obj [("totalEntries", .arr [.str (toString total)])]])]])]))

/-- A successful supplier response listing products with the given
salePrice texts. -/
def aliResp (ss : List String) : NetOutcome :=
  .response true (some (.obj
    [("success", .bool true),
     ("result", .obj [("products", .arr (ss.map (fun s => .obj [("salePrice", .str s)])))])]))

/-- The stats value computed from an extracted price list. -/
def stats_of (ps : List ℚ) : EbayStats :=
  { count := ps.length
    avg_price :=
      match ps with
      | [] => none
      | _ => some (ps.sum / (ps.length : ℚ)) }

theorem pyRoundInt_le {x : ℚ} {B : ℤ} (h : x ≤ B) : pyRoundInt x ≤ B := by
  have hfB : ⌊x⌋ ≤ B := by
    have h2 := Int.floor_mono h
    simpa using h2
  simp only [pyRoundInt]
  split
  next => exact hfB
  next hr =>
    push_neg at hr
    have hflt : ⌊x⌋ < B := by
      rcases lt_or_eq_of_le hfB with hlt | heq
      · exact hlt
      · exfalso
        rw [heq] at hr
        linarith
    split
    next => omega
    next => split <;> omega

theorem le_pyRoundInt {x : ℚ} {B : ℤ} (h : (B : ℚ) ≤ x) : B ≤ pyRoundInt x := by
  have hBf : B ≤ ⌊x⌋ := Int.le_floor.mpr h
  simp only [pyRoundInt]
  split
  next => exact hBf
  next =>
    split
    next => omega
    next => split <;> omega

theorem pyRound_le {x : ℚ} {B : ℤ} (h : x ≤ B) (d : ℕ) : pyRound x d ≤ B := by
  have hp : (0 : ℚ) < 10 ^ d := by positivity
  have h1 : x * 10 ^ d ≤ ((B * 10 ^ d : ℤ) : ℚ) := by
    push_cast
    exact mul_le_mul_of_nonneg_right h hp.le
  have h2 : pyRoundInt (x * 10 ^ d) ≤ B * 10 ^ d := pyRoundInt_le h1
  rw [pyRound, div_le_iff₀ hp]
  calc ((pyRoundInt (x * 10 ^ d) : ℚ)) ≤ ((B * 10 ^ d : ℤ) : ℚ) := by exact_mod_cast h2
    _ = (B : ℚ) * 10 ^ d := by push_cast; ring

theorem le_pyRound {x : ℚ} {B : ℤ} (h : (B : ℚ) ≤ x) (d : ℕ) : (B : ℚ) ≤ pyRound x d := by
  have hp : (0 : ℚ) < 10 ^ d := by positivity
  have h1 : ((B * 10 ^ d : ℤ) : ℚ) ≤ x * 10 ^ d := by
    push_cast
    exact mul_le_mul_of_nonneg_right h hp.le
  have h2 : B * 10 ^ d ≤ pyRoundInt (x * 10 ^ d) := le_pyRoundInt h1
  rw [pyRound, le_div_iff₀ hp]
  calc (B : ℚ) * 10 ^ d = ((B * 10 ^ d : ℤ) : ℚ) := by push_cast; ring
    _ ≤ (pyRoundInt (x * 10 ^ d) : ℚ) := by exact_mod_cast h2

theorem pyRoundInt_intCast (n : ℤ) : pyRoundInt (n : ℚ) = n := by
  simp [pyRoundInt]

theorem pyRound_intCast (n : ℤ) (d : ℕ) : pyRound (n : ℚ) d = n := by
  have h : ((n : ℚ) * 10 ^ d) = ((n * 10 ^ d : ℤ) : ℚ) := by push_cast; ring
  rw [pyRound, h, pyRoundInt_intCast]
  push_cast
  field_simp

theorem comp_prices_map (os : List (Option ℚ)) :
    comp_prices (os.map mkItem) = .ok (os.filterMap id) := by
  induction os with
  | nil => rfl
  | cons o os ih =>
    cases o with
    | none =>
      simp [comp_prices, mkItem, pyGet, lookupJ, pyTruthyOpt, ih]
    | some q =>
      simp [comp_prices, mkItem, pyGet, lookupJ, pyTruthyOpt, pyTruthy, pySubscript,
        pyIndex0, pyFloatOfJson, ih]

theorem ebay_stats_mk (os : List (Option ℚ)) (total : ℕ) :
    ebay_search_stats (mkEbayResp os total) = .ok (stats_of (os.filterMap id)) := by
  simp [ebay_search_stats, mkEbayResp, pyGetD, pyGet, lookupJ, pyIndex0, pyIter,
    comp_prices_map, stats_of]

theorem ali_single (s : String) (q : ℚ) (hs : s ≠ "")
    (hq : pyFloatChars (stripUSD s.data) = some q) :
    aliexpress_lowest_price true (aliResp [s]) = .ok (some q) := by
  simp [aliexpress_lowest_price, aliResp, pyGet, lookupJ, pyTruthyOpt, pyTruthy,
    pyGetD, pyIter, ali_prices, hs, hq]

theorem parse_ten : pyFloatChars (stripUSD "10.0".data) = some 10 := by
  have h : stripUSD "10.0".data = ['1', '0', '.', '0'] := by decide
  rw [h]
  simp +decide [pyFloatChars, pyFloatUnsigned, natOfDigits]

theorem parse_sixteen : pyFloatChars (stripUSD "16.0".data) = some 16 := by
  have h : stripUSD "16.0".data = ['1', '6', '.', '0'] := by decide
  rw [h]
  simp +decide [pyFloatChars, pyFloatUnsigned, natOfDigits]

theorem parse_two : pyFloatChars (stripUSD "2.0".data) = some 2 := by
  have h : stripUSD "2.0".data = ['2', '.', '0'] := by decide
  rw [h]
  simp +decide [pyFloatChars, pyFloatUnsigned, natOfDigits]

theorem parse_zero : pyFloatChars (stripUSD "0".data) = some 0 := by
  have h : stripUSD "0".data = ['0'] := by decide
  rw [h]
  simp +decide [pyFloatChars, pyFloatUnsigned, natOfDigits]

theorem ali_ten : aliexpress_lowest_price true (aliResp ["10.0"]) = .ok (some 10) :=
  ali_single _ _ (by decide) parse_ten

theorem ali_sixteen : aliexpress_lowest_price true (aliResp ["16.0"]) = .ok (some 16) :=
  ali_single _ _ (by decide) parse_sixteen

theorem ali_two : aliexpress_lowest_price true (aliResp ["2.0"]) = .ok (some 2) :=
  ali_single _ _ (by decide) parse_two

theorem ali_zero : aliexpress_lowest_price true (aliResp ["0"]) = .ok (some 0) :=
  ali_single _ _ (by decide) parse_zero

theorem ebay_twenty : ebay_search_stats (mkEbayResp [some 20] 7) = .ok ⟨1, some 20⟩ := by
  have h : List.filterMap id [some (20 : ℚ)] = [20] := rfl
  rw [ebay_stats_mk, h]
  simp [stats_of]

theorem ebay_ten_stats : ebay_search_stats (mkEbayResp [some 10] 0) = .ok ⟨1, some 10⟩ := by
  have h : List.filterMap id [some (10 : ℚ)] = [10] := rfl
  rw [ebay_stats_mk, h]
  simp [stats_of]

/-- The path of evaluate_keyword when the filters pass and the cost
service returns a known nonzero positive cost. -/
theorem evaluate_known_cost (kw reg : String) (eNet : NetOutcome) (ac : Bool)
    (aNet : NetOutcome) (count : ℕ) (avg cost : ℚ)
    (hreg : (lookupStr EBAY_GLOBAL_IDS reg).isSome)
    (he : ebay_search_stats eNet = .ok ⟨count, some avg⟩)
    (h0 : avg ≠ 0) (h25 : avg ≤ MAX_SELL_PRICE) (hcnt : count ≤ MAX_LISTINGS)
    (ha : aliexpress_lowest_price ac aNet = .ok (some cost)) (hcp : 0 < cost) :
    evaluate_keyword kw reg eNet ac aNet =
      if (avg - cost) / avg < MIN_MARGIN then .ok none
      else .ok (some { keyword := kw, region := reg, sell_price := pyRound avg 2,
                       cost_price := some (pyRound cost 2),
                       margin_pct := some (pyRound ((avg - cost) / avg * 100) 1),
                       ebay_listings := count }) := by
  obtain ⟨gid, hg⟩ := Option.isSome_iff_exists.mp hreg
  unfold evaluate_keyword
  rw [hg]
  dsimp only
  rw [he]
  dsimp only
  rw [if_neg (by push_neg; exact ⟨h0, h25, hcnt⟩)]
  rw [ha]
  dsimp only
  rw [show margin_of avg (some cost) = some ((avg - cost) / avg) from by
    simp [margin_of, hcp.ne']]
  dsimp only
  by_cases hm : (avg - cost) / avg < MIN_MARGIN
  · rw [if_pos hm, if_pos hm]
  · rw [if_neg hm, if_neg hm]
    have hmne : (avg - cost) / avg ≠ 0 := by
      have h1 : MIN_MARGIN ≤ (avg - cost) / avg := not_lt.mp hm
      have h2 : (0 : ℚ) < (avg - cost) / avg :=
        lt_of_lt_of_le (by norm_num [MIN_MARGIN]) h1
      exact h2.ne'
    simp [mkCandidate, margin_of, hcp.ne', hmne]

/-- The path of evaluate_keyword when the filters pass and the cost
service returns unknown (None). -/
theorem evaluate_unknown_cost (kw reg : String) (eNet : NetOutcome) (ac : Bool)
    (aNet : NetOutcome) (count : ℕ) (avg : ℚ)
    (hreg : (lookupStr EBAY_GLOBAL_IDS reg).isSome)
    (he : ebay_search_stats eNet = .ok ⟨count, some avg⟩)
    (h0 : avg ≠ 0) (h25 : avg ≤ MAX_SELL_PRICE) (hcnt : count ≤ MAX_LISTINGS)
    (ha : aliexpress_lowest_price ac aNet = .ok none) :
    evaluate_keyword kw reg eNet ac aNet =
      .ok (some { keyword := kw, region := reg, sell_price := pyRound avg 2,
                  cost_price := none, margin_pct := none, ebay_listings := count }) := by
  obtain ⟨gid, hg⟩ := Option.isSome_iff_exists.mp hreg
  unfold evaluate_keyword
  rw [hg]
  dsimp only
  rw [he]
  dsimp only
  rw [if_neg (by push_neg; exact ⟨h0, h25, hcnt⟩)]
  rw [ha]
  simp [mkCandidate, margin_of]

/-- The path of evaluate_keyword when the filters pass and the cost
service returns the float 0.0: margin stays None and the comparison
None < MIN_MARGIN raises TypeError. -/
theorem evaluate_zero_cost (kw reg : String) (eNet : NetOutcome) (ac : Bool)
    (aNet : NetOutcome) (count : ℕ) (avg : ℚ)
    (hreg : (lookupStr EBAY_GLOBAL_IDS reg).isSome)
    (he : ebay_search_stats eNet = .ok ⟨count, some avg⟩)
    (h0 : avg ≠ 0) (h25 : avg ≤ MAX_SELL_PRICE) (hcnt : count ≤ MAX_LISTINGS)
    (ha : aliexpress_lowest_price ac aNet = .ok (some 0)) :
    evaluate_keyword kw reg eNet ac aNet = .error .typeError := by
  obtain ⟨gid, hg⟩ := Option.isSome_iff_exists.mp hreg
  unfold evaluate_keyword
  rw [hg]
  dsimp only
  rw [he]
  dsimp only
  rw [if_neg (by push_neg; exact ⟨h0, h25, hcnt⟩)]
  rw [ha]
  simp [margin_of]

theorem pyRound_twenty : pyRound (20 : ℚ) 2 = 20 := by
  have h := pyRound_intCast 20 2
  push_cast at h
  exact h

theorem pyRound_ten : pyRound (10 : ℚ) 2 = 10 := by
  have h := pyRound_intCast 10 2
  push_cast at h
  exact h

theorem pyRound_two : pyRound (2 : ℚ) 2 = 2 := by
  have h := pyRound_intCast 2 2
  push_cast at h
  exact h

theorem pyRound_fifty : pyRound (50 : ℚ) 1 = 50 := by
  have h := pyRound_intCast 50 1
  push_cast at h
  exact h

theorem pyRound_eighty : pyRound (80 : ℚ) 1 = 80 := by
  have h := pyRound_intCast 80 1
  push_cast at h
  exact h

/-- Full-pipeline evaluation: one 20.0 listing, cost 10.0, accepted at
margin 50 percent. -/
theorem eval_fifty :
    evaluate_keyword "k" "US" (mkEbayResp [some 20] 7) true (aliResp ["10.0"])
      = .ok (some ⟨"k", "US", 20, some 10, some 50, 1⟩) := by
  have h := evaluate_known_cost "k" "US" (mkEbayResp [some 20] 7) true (aliResp ["10.0"])
    1 20 10 (by decide) ebay_twenty (by norm_num) (by norm_num [MAX_SELL_PRICE])
    (by norm_num [MAX_LISTINGS]) ali_ten (by norm_num)
  rw [h, if_neg (by norm_num [MIN_MARGIN])]
  have e1 : ((20 : ℚ) - 10) / 20 * 100 = 50 := by norm_num
  rw [e1, pyRound_twenty, pyRound_ten, pyRound_fifty]

/-- Full-pipeline evaluation: one 20.0 listing, cost 16.0, rejected
because the margin 20 percent is below MIN_MARGIN. -/
theorem eval_sixteen :
    evaluate_keyword "k" "US" (mkEbayResp [some 20] 7) true (aliResp ["16.0"])
      = .ok none := by
  have h := evaluate_known_cost "k" "US" (mkEbayResp [some 20] 7) true (aliResp ["16.0"])
    1 20 16 (by decide) ebay_twenty (by norm_num) (by norm_num [MAX_SELL_PRICE])
    (by norm_num [MAX_LISTINGS]) ali_sixteen (by norm_num)
  rw [h, if_pos (by norm_num [MIN_MARGIN])]

/-- Full-pipeline evaluation: one 20.0 listing, cost source
unconfigured, accepted with unknown cost and margin. -/
theorem eval_na :
    evaluate_keyword "k" "US" (mkEbayResp [some 20] 7) false .failure
      = .ok (some ⟨"k", "US", 20, none, none, 1⟩) := by
  have h := evaluate_unknown_cost "k" "US" (mkEbayResp [some 20] 7) false .failure
    1 20 (by decide) ebay_twenty (by norm_num) (by norm_num [MAX_SELL_PRICE])
    (by norm_num [MAX_LISTINGS]) rfl
  rw [h, pyRound_twenty]

theorem pyRound_le_max {x : ℚ} (h : x ≤ MAX_SELL_PRICE) (d : ℕ) :
    pyRound x d ≤ MAX_SELL_PRICE := by
  have h1 : x ≤ ((25 : ℤ) : ℚ) := by
    push_cast
    simpa [MAX_SELL_PRICE] using h
  have h2 := pyRound_le h1 d
  rw [MAX_SELL_PRICE]
  push_cast at h2
  exact h2

theorem le_pyRound_thirty {m : ℚ} (h : MIN_MARGIN ≤ m) :
    100 * MIN_MARGIN ≤ pyRound (m * 100) 1 := by
  have hh : (3 / 10 : ℚ) ≤ m := by simpa [MIN_MARGIN] using h
  have h1 : ((30 : ℤ) : ℚ) ≤ m * 100 := by push_cast; linarith
  have h2 := le_pyRound h1 1
  have h3 : (100 : ℚ) * MIN_MARGIN = 30 := by norm_num [MIN_MARGIN]
  rw [h3]
  push_cast at h2
  exact h2

/-- C1: for every keyword and region (and any service behaviour),
evaluate_keyword never returns an accepted candidate whose sell_price
exceeds MAX_SELL_PRICE (25.0) or whose listing count exceeds
MAX_LISTINGS (250), and whenever the returned candidate's cost_price is
a known number its margin_pct is at least MIN_MARGIN expressed as a
percentage (30.0). -/
theorem evaluate_keyword_candidate_invariants (kw reg : String) (eNet : NetOutcome)
    (ac : Bool) (aNet : NetOutcome) (c : Candidate)
    (h : evaluate_keyword kw reg eNet ac aNet = .ok (some c)) :
    c.sell_price ≤ MAX_SELL_PRICE ∧ c.ebay_listings ≤ MAX_LISTINGS ∧
      ∀ cp, c.cost_price = some cp →
        ∃ mp, c.margin_pct = some mp ∧ 100 * MIN_MARGIN ≤ mp := by
  unfold evaluate_keyword at h
  rcases hL : lookupStr EBAY_GLOBAL_IDS reg with _ | gid <;> rw [hL] at h
  · simp at h
  rcases hE : ebay_search_stats eNet with e | stats <;> rw [hE] at h
  · simp at h
  rcases stats with ⟨count, avgO⟩
  dsimp only at h
  rcases avgO with _ | avg
  · simp at h
  dsimp only at h
  by_cases hfil : avg = 0 ∨ MAX_SELL_PRICE < avg ∨ MAX_LISTINGS < count
  · rw [if_pos hfil] at h
    simp at h
  rw [if_neg hfil] at h
  push_neg at hfil
  obtain ⟨h0, h25, hcnt⟩ := hfil
  rcases hA : aliexpress_lowest_price ac aNet with e | costO <;> rw [hA] at h
  · simp at h
  rcases costO with _ | co
  · dsimp only at h
    simp only [Except.ok.injEq, Option.some.injEq] at h
    subst h
    refine ⟨?_, ?_, ?_⟩
    · exact pyRound_le_max h25 2
    · simpa [mkCandidate] using hcnt
    · intro cp hcp
      simp [mkCandidate] at hcp
  · dsimp only at h
    rcases hM : margin_of avg (some co) with _ | m <;> rw [hM] at h
    · simp at h
    dsimp only at h
    by_cases hm : m < MIN_MARGIN
    · rw [if_pos hm] at h
      simp at h
    rw [if_neg hm] at h
    simp only [Except.ok.injEq, Option.some.injEq] at h
    subst h
    have hmge : MIN_MARGIN ≤ m := not_lt.mp hm
    have hm0 : m ≠ 0 := by
      have hpos : (0 : ℚ) < m := lt_of_lt_of_le (by norm_num [MIN_MARGIN]) hmge
      exact hpos.ne'
    refine ⟨?_, ?_, ?_⟩
    · exact pyRound_le_max h25 2
    · simpa [mkCandidate] using hcnt
    · intro cp hcp
      refine ⟨pyRound (m * 100) 1, ?_, le_pyRound_thirty hmge⟩
      simp [mkCandidate, hM, hm0]

/-- Witness for C1: a concrete accepted candidate (one 20.0 listing,
cost 10.0) satisfies the invariants. -/
theorem evaluate_keyword_candidate_invariants_witness :
    (⟨"k", "US", 20, some 10, some 50, 1⟩ : Candidate).sell_price ≤ MAX_SELL_PRICE ∧
      (⟨"k", "US", 20, some 10, some 50, 1⟩ : Candidate).ebay_listings ≤ MAX_LISTINGS ∧
      ∀ cp, (⟨"k", "US", 20, some 10, some 50, 1⟩ : Candidate).cost_price = some cp →
        ∃ mp, (⟨"k", "US", 20, some 10, some 50, 1⟩ : Candidate).margin_pct = some mp ∧
          100 * MIN_MARGIN ≤ mp :=
  evaluate_keyword_candidate_invariants "k" "US" (mkEbayResp [some 20] 7) true
    (aliResp ["10.0"]) _ eval_fifty

/-- C2: whenever the average price passes the price and listing filters
and the cost service returns a known positive cost, evaluate_keyword
computes margin = (avg - cost)/avg, rejects exactly when
margin < MIN_MARGIN, and otherwise accepts with margin_pct equal to the
margin times 100 rounded to one decimal place; in particular average
20.0 with cost 10.0 is accepted with margin_pct 50.0, and average 20.0
with cost 16.0 is rejected. -/
theorem evaluate_keyword_margin_policy :
    (∀ (kw reg : String) (eNet : NetOutcome) (ac : Bool) (aNet : NetOutcome)
        (count : ℕ) (avg cost : ℚ),
      (lookupStr EBAY_GLOBAL_IDS reg).isSome →
      ebay_search_stats eNet = .ok ⟨count, some avg⟩ →
      avg ≠ 0 → avg ≤ MAX_SELL_PRICE → count ≤ MAX_LISTINGS →
      aliexpress_lowest_price ac aNet = .ok (some cost) → 0 < cost →
      evaluate_keyword kw reg eNet ac aNet =
        if (avg - cost) / avg < MIN_MARGIN then .ok none
        else .ok (some ⟨kw, reg, pyRound avg 2, some (pyRound cost 2),
                        some (pyRound ((avg - cost) / avg * 100) 1), count⟩))
    ∧ evaluate_keyword "k" "US" (mkEbayResp [some 20] 7) true (aliResp ["10.0"])
        = .ok (some ⟨"k", "US", 20, some 10, some 50, 1⟩)
    ∧ evaluate_keyword "k" "US" (mkEbayResp [some 20] 7) true (aliResp ["16.0"])
        = .ok none :=
  ⟨fun kw reg eNet ac aNet count avg cost =>
      evaluate_known_cost kw reg eNet ac aNet count avg cost,
   eval_fifty, eval_sixteen⟩

/-- Witness for C2: a fresh concrete run (average 10.0, cost 2.0,
margin 80 percent) through the first conjunct. -/
theorem evaluate_keyword_margin_policy_witness :
    evaluate_keyword "w" "AU" (mkEbayResp [some 10] 0) true (aliResp ["2.0"])
      = .ok (some ⟨"w", "AU", 10, some 2, some 80, 1⟩) := by
  have h := evaluate_keyword_margin_policy.1 "w" "AU" (mkEbayResp [some 10] 0) true
    (aliResp ["2.0"]) 1 10 2 (by decide) ebay_ten_stats (by norm_num)
    (by norm_num [MAX_SELL_PRICE]) (by norm_num [MAX_LISTINGS]) ali_two (by norm_num)
  rw [h, if_neg (by norm_num [MIN_MARGIN])]
  have e1 : ((10 : ℚ) - 2) / 10 * 100 = 80 := by norm_num
  have e2 : pyRound (10 : ℚ) 2 = 10 := by
    have hh := pyRound_intCast 10 2
    push_cast at hh
    exact hh
  rw [e1, e2, pyRound_two, pyRound_eighty]

/-- C3: whenever the average price passes the price and listing filters
and the cost service returns no cost, evaluate_keyword accepts the
keyword and the candidate carries the unknown sentinel (none,
rendered n/a) for both cost_price and margin_pct. -/
theorem evaluate_keyword_unknown_cost_accepts
    (kw reg : String) (eNet : NetOutcome) (ac : Bool) (aNet : NetOutcome)
    (count : ℕ) (avg : ℚ)
    (hreg : (lookupStr EBAY_GLOBAL_IDS reg).isSome)
    (he : ebay_search_stats eNet = .ok ⟨count, some avg⟩)
    (h0 : avg ≠ 0) (h25 : avg ≤ MAX_SELL_PRICE) (hcnt : count ≤ MAX_LISTINGS)
    (ha : aliexpress_lowest_price ac aNet = .ok none) :
    evaluate_keyword kw reg eNet ac aNet =
      .ok (some ⟨kw, reg, pyRound avg 2, none, none, count⟩) :=
  evaluate_unknown_cost kw reg eNet ac aNet count avg hreg he h0 h25 hcnt ha

/-- Witness for C3: cost source unconfigured, one 20.0 listing, the
candidate is accepted with unknown cost and margin. -/
theorem evaluate_keyword_unknown_cost_accepts_witness :
    evaluate_keyword "k" "UK" (mkEbayResp [some 20] 7) false .failure
      = .ok (some ⟨"k", "UK", 20, none, none, 1⟩) := by
  have h := evaluate_keyword_unknown_cost_accepts "k" "UK" (mkEbayResp [some 20] 7)
    false .failure 1 20 (by decide) ebay_twenty (by norm_num)
    (by norm_num [MAX_SELL_PRICE]) (by norm_num [MAX_LISTINGS]) rfl
  rw [h, pyRound_twenty]

/-- C10: when the filters pass and the cost service returns exactly 0.0
(a known cost), margin stays None, the comparison None < MIN_MARGIN is
attempted, and evaluate_keyword raises TypeError rather than returning
an accepted candidate or a rejection. -/
theorem evaluate_keyword_zero_cost_raises
    (kw reg : String) (eNet : NetOutcome) (ac : Bool) (aNet : NetOutcome)
    (count : ℕ) (avg : ℚ)
    (hreg : (lookupStr EBAY_GLOBAL_IDS reg).isSome)
    (he : ebay_search_stats eNet = .ok ⟨count, some avg⟩)
    (h0 : avg ≠ 0) (h25 : avg ≤ MAX_SELL_PRICE) (hcnt : count ≤ MAX_LISTINGS)
    (ha : aliexpress_lowest_price ac aNet = .ok (some 0)) :
    evaluate_keyword kw reg eNet ac aNet = .error .typeError :=
  evaluate_zero_cost kw reg eNet ac aNet count avg hreg he h0 h25 hcnt ha

/-- Witness for C10: full pipeline with a supplier price text 0, which
parses to the float 0.0. -/
theorem evaluate_keyword_zero_cost_raises_witness :
    evaluate_keyword "k" "US" (mkEbayResp [some 20] 7) true (aliResp ["0"])
      = .error .typeError :=
  evaluate_keyword_zero_cost_raises "k" "US" (mkEbayResp [some 20] 7) true
    (aliResp ["0"]) 1 20 (by decide) ebay_twenty (by norm_num)
    (by norm_num [MAX_SELL_PRICE]) (by norm_num [MAX_LISTINGS]) ali_zero

/-- C5: the claim that aliexpress_lowest_price never raises is violated
by the code: r.json() is executed outside the try block, so a 200
response whose body is not valid JSON raises JSONDecodeError to the
caller instead of returning the unknown sentinel. -/
theorem aliexpress_body_parse_failure_raises :
    aliexpress_lowest_price true (.response true none) = .error .jsonDecodeError := by
  decide

/-- C4: the claim that the written report is sorted with unknown-margin
rows last is violated by the code: df.sort_values on the margin_pct
column compares the string n/a with a float and raises TypeError for
the result set with margins 50.0, n/a, 80.0, so no report is written. -/
theorem report_sort_mixed_margins_raises :
    report_rows [⟨"a", "US", 20, some 10, some 50, 5⟩,
                 ⟨"b", "US", 20, none, none, 5⟩,
                 ⟨"c", "US", 20, some 2, some 80, 5⟩] = .error .typeError := by
  decide

/-- C6 counterexample: an item whose sellingStatus is a truthy
non-empty list but whose first element lacks currentPrice makes
ebay_search_stats raise KeyError, refuting the claim that absent
pricing fields default to empty collections without lookup errors. -/
theorem ebay_stats_missing_price_keyerror :
    ebay_search_stats (.response true (some (.obj [("findItemsAdvancedResponse",
      .arr [.obj [("searchResult", .arr [.obj [("item",
        .arr [.obj [("sellingStatus", .arr [Json.obj []])]])]])]])])))
      = .error .keyError := by
  decide

/-- C6 amended: the defensive defaulting holds at the envelope,
searchResult and item levels (each absent level yields the empty stats
without a lookup error), but an item's pricing fields are accessed
without defaults: a truthy sellingStatus whose first element carries a
currentPrice list without the __value__ field raises KeyError. -/
theorem ebay_stats_defensive_amended :
    (∀ fs, lookupJ fs "findItemsAdvancedResponse" = none →
      ebay_search_stats (.response true (some (.obj fs))) = .ok ⟨0, none⟩)
    ∧ (∀ fs fs1, lookupJ fs "findItemsAdvancedResponse" = some (.arr [.obj fs1]) →
        lookupJ fs1 "searchResult" = none →
        ebay_search_stats (.response true (some (.obj fs))) = .ok ⟨0, none⟩)
    ∧ (∀ fs fs1 fs2, lookupJ fs "findItemsAdvancedResponse" = some (.arr [.obj fs1]) →
        lookupJ fs1 "searchResult" = some (.arr [.obj fs2]) →
        lookupJ fs2 "item" = none →
        ebay_search_stats (.response true (some (.obj fs))) = .ok ⟨0, none⟩)
    ∧ ebay_search_stats (.response true (some (.obj [("findItemsAdvancedResponse",
        .arr [.obj [("searchResult", .arr [.obj [("item",
          .arr [.obj [("sellingStatus", .arr [.obj [("currentPrice",
            .arr [Json.obj []])]])]])]])]])])))
        = .error .keyError := by
  refine ⟨?_, ?_, ?_, by decide⟩
  · intro fs h1
    simp only [lookupJ] at h1
    simp [ebay_search_stats, pyGetD, pyGet, pyIndex0, pyIter, comp_prices, lookupJ, h1]
  · intro fs fs1 h1 h2
    simp only [lookupJ] at h1 h2
    simp [ebay_search_stats, pyGetD, pyGet, pyIndex0, pyIter, comp_prices, lookupJ, h1, h2]
  · intro fs fs1 fs2 h1 h2 h3
    simp only [lookupJ] at h1 h2 h3
    simp [ebay_search_stats, pyGetD, pyGet, pyIndex0, pyIter, comp_prices, lookupJ, h1, h2, h3]

/-- Witness for C6 amended: the empty-object body yields the empty
stats through the first conjunct. -/
theorem ebay_stats_defensive_amended_witness :
    ebay_search_stats (.response true (some (.obj []))) = .ok ⟨0, none⟩ :=
  ebay_stats_defensive_amended.1 [] rfl

/-- C7: for every well-formed marketplace response, ebay_search_stats
returns count equal to the number of items from which a price was
extracted (ignoring the server-side total-result count carried by the
response) and avg_price equal to the arithmetic mean of those prices,
or the absent sentinel (none) when zero prices were extracted. -/
theorem ebay_stats_count_and_mean (os : List (Option ℚ)) (total : ℕ) :
    ebay_search_stats (mkEbayResp os total) =
      .ok ⟨(os.filterMap id).length,
           if os.filterMap id = [] then none
           else some ((os.filterMap id).sum / ((os.filterMap id).length : ℚ))⟩ := by
  rw [ebay_stats_mk]
  rcases h : os.filterMap id with _ | ⟨p, ps⟩ <;> simp [stats_of, h]

/-- C8 counterexample: with cap 0 and the feed a single keyword, the
returned sequence has length 1, violating length at most topN. -/
theorem get_trending_keywords_cap_zero_cex :
    get_trending_keywords ["a"] 0 = ["a"] ∧
      ¬ (get_trending_keywords ["a"] 0).length ≤ 0 := by
  decide

/-- The loop invariant of get_trending_keywords: starting from a
duplicate-free accumulator strictly below the cap, the loop keeps the
result duplicate-free, below the cap, and appends a subsequence of the
remaining feed. -/
theorem trend_loop_spec (kws : List String) : ∀ (seen : List String) (top_n : ℕ),
    seen.Nodup → seen.length < top_n →
    (trend_loop top_n kws seen).Nodup ∧ (trend_loop top_n kws seen).length ≤ top_n ∧
      ∃ t, trend_loop top_n kws seen = seen ++ t ∧ t.Sublist kws := by
  induction kws with
  | nil =>
    intro seen top_n hnd hlt
    exact ⟨hnd, le_of_lt hlt, [], by simp [trend_loop], List.nil_sublist []⟩
  | cons kw rest ih =>
    intro seen top_n hnd hlt
    simp only [trend_loop]
    by_cases hc : kw ≠ "" ∧ kw ∉ seen
    · rw [if_pos hc]
      have hnd' : (seen ++ [kw]).Nodup := by
        simp [List.nodup_append, hnd, hc.2]
      by_cases hstop : top_n ≤ (seen ++ [kw]).length
      · rw [if_pos hstop]
        refine ⟨hnd', ?_, [kw], rfl, ?_⟩
        · simp only [List.length_append, List.length_singleton]
          omega
        · exact List.Sublist.cons₂ kw (List.nil_sublist rest)
      · rw [if_neg hstop]
        have hlt' : (seen ++ [kw]).length < top_n := lt_of_not_le hstop
        obtain ⟨nd2, le2, t, ht, hsub⟩ := ih (seen ++ [kw]) top_n hnd' hlt'
        refine ⟨nd2, le2, kw :: t, ?_, List.Sublist.cons₂ kw hsub⟩
        rw [ht]
        simp
    · rw [if_neg hc]
      rw [if_neg (not_le.mpr hlt)]
      obtain ⟨nd2, le2, t, ht, hsub⟩ := ih seen top_n hnd hlt
      exact ⟨nd2, le2, t, ht, List.Sublist.cons kw hsub⟩

/-- C8 amended: for every feed and every positive cap topN,
get_trending_keywords returns a duplicate-free sequence of length at
most topN that is a subsequence of the feed (first-seen order
preserved); with cap 0 the loop can return one element, see the
counterexample. -/
theorem get_trending_keywords_amended (kws : List String) (top_n : ℕ) (h : 1 ≤ top_n) :
    (get_trending_keywords kws top_n).Nodup ∧
      (get_trending_keywords kws top_n).length ≤ top_n ∧
      (get_trending_keywords kws top_n).Sublist kws := by
  obtain ⟨nd, le2, t, ht, hsub⟩ := trend_loop_spec kws [] top_n (by simp) (by simp only [List.length_nil]; omega)
  refine ⟨?_, ?_, ?_⟩ <;> rw [get_trending_keywords]
  · exact nd
  · exact le2
  · rw [ht]
    simpa using hsub

/-- Witness for C8 amended: the feed b, b, a with cap 2. -/
theorem get_trending_keywords_amended_witness :
    (get_trending_keywords ["b", "b", "a"] 2).Nodup ∧
      (get_trending_keywords ["b", "b", "a"] 2).length ≤ 2 ∧
      (get_trending_keywords ["b", "b", "a"] 2).Sublist ["b", "b", "a"] :=
  get_trending_keywords_amended ["b", "b", "a"] 2 (by norm_num)

/-- Replacing every erroring evaluation by a no-candidate result leaves
eval_rows unchanged: the except clause swallows the failure and the
loop continues. -/
theorem eval_rows_congr
    (evalf evalg : String → String → Except PyErr (Option Candidate))
    (h : ∀ kw reg, evalg kw reg = evalf kw reg ∨
          ((∃ e, evalf kw reg = .error e) ∧ evalg kw reg = .ok none))
    (reg : String) : ∀ kws, eval_rows evalf reg kws = eval_rows evalg reg kws := by
  intro kws
  induction kws with
  | nil => rfl
  | cons kw rest ih =>
    rcases h kw reg with heq | ⟨⟨e, herr⟩, hnone⟩
    · cases hv : evalf kw reg with
      | error e => simp only [eval_rows, heq, hv, ih]
      | ok o =>
        cases o with
        | none => simp only [eval_rows, heq, hv, ih]
        | some c => simp only [eval_rows, heq, hv, ih]
    · simp only [eval_rows, herr, hnone, ih]

/-- C9: if the evaluation of any keyword raises, discover_products
behaves exactly as if that keyword had produced no candidate: the
failure is caught, nothing is recorded for it, and the remaining
keywords and regions still contribute their candidates.  Stated as:
replacing every erroring evaluation by the no-candidate result leaves
the discovered rows unchanged. -/
theorem discover_products_error_isolation (regions : List String)
    (kwsOf : String → List String)
    (evalf evalg : String → String → Except PyErr (Option Candidate))
    (h : ∀ kw reg, evalg kw reg = evalf kw reg ∨
          ((∃ e, evalf kw reg = .error e) ∧ evalg kw reg = .ok none)) :
    discover_products regions kwsOf evalf = discover_products regions kwsOf evalg := by
  induction regions with
  | nil => rfl
  | cons reg rest ih =>
    rw [discover_products, discover_products, ih, eval_rows_congr evalf evalg h reg]

/-- An evaluator for the C9 witness: the keyword bad raises a hard
marketplace failure, every other keyword is accepted. -/
def wEvalFail : String → String → Except PyErr (Option Candidate) :=
  fun kw _ => if kw = "bad" then .error .requestError
              else .ok (some ⟨"good", "US", 1, none, none, 0⟩)

/-- The same evaluator with the failure replaced by no candidate. -/
def wEvalNone : String → String → Except PyErr (Option Candidate) :=
  fun kw reg => if kw = "bad" then .ok none else wEvalFail kw reg

/-- Witness for C9: with keywords bad and good in one region, the run
with the raising evaluator returns the same rows as the run where the
failure is a plain rejection. -/
theorem discover_products_error_isolation_witness :
    discover_products ["US"] (fun _ => ["bad", "good"]) wEvalFail =
      discover_products ["US"] (fun _ => ["bad", "good"]) wEvalNone := by
  refine discover_products_error_isolation ["US"] (fun _ => ["bad", "good"])
    wEvalFail wEvalNone ?_
  intro kw reg
  by_cases hk : kw = "bad"
  · exact Or.inr ⟨⟨.requestError, by simp [wEvalFail, hk]⟩, by simp [wEvalNone, hk]⟩
  · exact Or.inl (by simp [wEvalNone, hk])
